import Mathlib

/-!
Shallow embedding of the criminology web application (criminals and user
modules) and verification of its specification claims.

Conventions: Django ORM tables are Lean lists; a row id is its position in
the list at creation time.  Python string methods are mirrored by Lean
`String` operations (`strip` ↦ `String.trim`, `lower` ↦ `String.toLower`).
Password and security-answer hashing (`make_password` / `check_password`)
is modelled by an injective wrapper, the ideal-hash assumption.
-/

namespace Criminology

/-! ### Data model — criminals/models.py -/

/-- A row of `FederalOffense` or `VACodeOffense`: the three user-supplied
fields (`offense_type`, `offense_class`, `description`).  The two offense
variants live in disjoint tables of the same shape. -/
structure OffenseRec where
  offense_type : String
  offense_class : String
  description : String
deriving DecidableEq, Repr

/-- A `CriminalOffenseLink` as seen from one criminal: an optional federal
offense and an optional Virginia-code offense (application logic keeps at
most one of them set). -/
structure OffenseLink where
  federal_offense : Option OffenseRec
  vacode_offense : Option OffenseRec
deriving DecidableEq, Repr

/-- A `Criminal` row together with the link rows whose `criminal` key
points at it.  `CriminalOffenseLink.criminal` (models.py line 160)
declares no `related_name`, so the only reverse accessor Django
generates on `Criminal` is the default `criminaloffenselink_set`; the
name `offense_links` that the views use does not exist. -/
structure Criminal where
  first_name : String
  last_name : String
  criminaloffenselink_set : List OffenseLink
deriving DecidableEq, Repr

/-- Resolving a reverse-relation attribute on a `Criminal` instance (or
the same lookup done by `Prefetch`): only `criminaloffenselink_set`
exists; any other name raises `AttributeError`. -/
def Criminal.getattr_related (c : Criminal) (name : String) :
    Except String (List OffenseLink) :=
  if name = "criminaloffenselink_set" then .ok c.criminaloffenselink_set
  else .error ("AttributeError: 'Criminal' object has no attribute '"
    ++ name ++ "'")

/-- The error raised when the views look up `offense_links`. -/
def offense_links_error : String :=
  "AttributeError: 'Criminal' object has no attribute 'offense_links'"

/-! ### Python string methods

List-based models of the Python string methods the views call, so that
every definition evaluates by kernel reduction. -/

/-- Python `str.lower()`. -/
def pyLower (s : String) : String :=
  String.mk (s.data.map Char.toLower)

/-- Python `str.strip()`: drop whitespace from both ends. -/
def pyStrip (s : String) : String :=
  String.mk
    (((s.data.dropWhile Char.isWhitespace).reverse.dropWhile
        Char.isWhitespace).reverse)

/-- Python `str.endswith(suffix)`. -/
def pyEndsWith (s sfx : String) : Bool :=
  sfx.data.isSuffixOf s.data

/-! ### Offense prioritisation — criminals/views.py lines 72–101 -/

/-- The `OFFENSE_PRIORITY` dict with `.get(type, 0)` access. -/
def OFFENSE_PRIORITY (t : String) : Nat :=
  if t = "Felony" then 3
  else if t = "Misdemeanor" then 2
  else if t = "Infraction" then 1
  else 0

/-- The value of `link.federal_offense or link.vacode_offense`, paired with
`offense.source` (the property that returns `"federal"` or `"virginia"`
depending on the offense's table). -/
def link_offense (l : OffenseLink) : Option (String × OffenseRec) :=
  match l.federal_offense with
  | some o => some ("federal", o)
  | none =>
    match l.vacode_offense with
    | some o => some ("virginia", o)
    | none => none

/-- One iteration of the loop in `get_highest_offense`: the accumulator is
`(max_score, max_source/max_offense)`; `max_source` and `max_offense` are
always assigned together, so they are bundled into one `Option`. -/
def ghoStep (acc : Nat × Option (String × OffenseRec)) (l : OffenseLink) :
    Nat × Option (String × OffenseRec) :=
  match link_offense l with
  | none => acc
  | some (src, off) =>
    let score := OFFENSE_PRIORITY off.offense_type
    if score > acc.1 then (score, some (src, off)) else acc

/-- The loop of `get_highest_offense` (views.py lines 87–101) over a
link list: returns `(max_score, (max_source, max_offense))`. -/
def gho_loop (links : List OffenseLink) :
    Nat × Option (String × OffenseRec) :=
  links.foldl ghoStep (0, none)

/-- The function `get_highest_offense(criminal)` (views.py lines
79–101): its first statement `links = criminal.offense_links.all()`
resolves the non-existent `offense_links` accessor, so the retrieval
raises before the loop can run. -/
def get_highest_offense (c : Criminal) :
    Except String (Nat × Option (String × OffenseRec)) :=
  match c.getattr_related "offense_links" with
  | .error e => .error e
  | .ok links => .ok (gho_loop links)

/-! Specification-side restatement of the prioritisation contract
(for the refinement theorem of claim C2): the candidates are the links
that carry an offense; the winner is the first candidate attaining the
maximal priority, or nothing when the maximum is 0. -/

/-- Links that actually carry an offense, in iteration order. -/
def candidates (links : List OffenseLink) : List (String × OffenseRec) :=
  links.filterMap link_offense

/-- Priority score of one candidate. -/
def candScore (c : String × OffenseRec) : Nat :=
  OFFENSE_PRIORITY c.2.offense_type

/-- Maximal priority among a candidate list (0 when empty). -/
def maxScoreOf (cs : List (String × OffenseRec)) : Nat :=
  cs.foldr (fun c m => max (candScore c) m) 0

/-- Spec wording: "among links with equal priority, the first one
encountered in iteration order wins"; "an offense type absent from this
mapping scores 0 and is never selected". -/
def highest_offense_spec (links : List OffenseLink) :
    Option (String × OffenseRec) :=
  let m := maxScoreOf (candidates links)
  if 0 < m then (candidates links).find? (fun c => candScore c == m) else none

/-! ### Grouping into six buckets — criminals/views.py lines 139–157 -/

/-- Python `str.capitalize()`: first character upper-cased, the rest
lower-cased. -/
def pyCapitalize (s : String) : String :=
  match s.data with
  | [] => ""
  | c :: cs => String.mk (c.toUpper :: cs.map Char.toLower)

/-- The keys of the `categorized` dict literal in `view_all_criminals`. -/
def categorized_labels : List String :=
  ["Federal Felons", "Federal Misdemeanors", "Federal Infractions",
   "Virginia Felons", "Virginia Misdemeanors", "Virginia Infractions"]

/-- The bucket key `source.capitalize() + " " + offense.offense_type + "s"`. -/
def bucket_key (source : String) (offense_type : String) : String :=
  pyCapitalize source ++ " " ++ offense_type ++ "s"

/-- The access `categorized[key].append(criminal)` on a dict kept as an association
list; a missing key raises `KeyError`. -/
def dictAppend (d : List (String × List Criminal)) (k : String) (c : Criminal) :
    Except String (List (String × List Criminal)) :=
  match d with
  | [] => .error ("KeyError: " ++ k)
  | (k0, v) :: rest =>
    if k0 = k then .ok ((k0, v ++ [c]) :: rest)
    else (dictAppend rest k c).map (fun r => (k0, v) :: r)

/-- Evaluating the queryset built by `get_criminals_with_offenses`
(views.py lines 109–122): `prefetch_related` is lazy, and
`prefetch_related_objects` returns immediately on an empty result set;
with at least one row it resolves the `Prefetch("offense_links")`
lookup on the first object, which raises `AttributeError` because that
accessor does not exist. -/
def get_criminals_with_offenses (criminals : List Criminal) :
    Except String (List Criminal) :=
  match criminals with
  | [] => .ok []
  | c :: _ =>
    match c.getattr_related "offense_links" with
    | .error e => .error e
    | .ok _ => .ok criminals

/-- Loop body of `view_all_criminals`: skip criminals with no offense,
otherwise append to the bucket named by the highest offense (any
exception from `get_highest_offense` propagates). -/
def categorize_step (d : List (String × List Criminal)) (c : Criminal) :
    Except String (List (String × List Criminal)) :=
  match get_highest_offense c with
  | .error e => .error e
  | .ok (_, none) => .ok d
  | .ok (_, some (src, off)) => dictAppend d (bucket_key src off.offense_type) c

/-- The grouping phase of `view_all_criminals` (before pagination): the
fresh six-bucket dict folded over the criminals yielded by iterating
`get_criminals_with_offenses()` — the iteration itself may raise. -/
def view_all_categorize (criminals : List Criminal) :
    Except String (List (String × List Criminal)) :=
  match get_criminals_with_offenses criminals with
  | .error e => .error e
  | .ok cs => cs.foldlM categorize_step (categorized_labels.map (fun l => (l, [])))

/-! ### Database state for criminal/offense creation -/

/-- A `CriminalOffenseLink` database row: foreign keys by id.  The
`criminal` key is non-nullable in the schema. -/
structure LinkRow where
  criminal : Nat
  federal_offense : Option Nat
  vacode_offense : Option Nat
deriving DecidableEq, Repr

/-- The tables touched by criminal creation.  A row's id is its position
in its table. -/
structure CrimDB where
  criminals : List (Nat × String × String)
  federal_offenses : List OffenseRec
  vacode_offenses : List OffenseRec
  offense_links : List LinkRow
deriving DecidableEq, Repr

/-- Django `Model.objects.get_or_create(offense_type=..., offense_class=...,
description=...)`: return the id of the first row matching all three
fields, or append a new row. -/
def get_or_create (table : List OffenseRec) (o : OffenseRec) :
    Nat × List OffenseRec :=
  match table.findIdx? (fun x => x == o) with
  | some i => (i, table)
  | none => (table.length, table ++ [o])

/-- Rows of `table` equal to the triple `o`. -/
def countMatching (table : List OffenseRec) (o : OffenseRec) : Nat :=
  (table.filter (fun x => x == o)).length

/-- The successful-POST body of `add_criminal` (views.py lines 335–355):
save the criminal, `get_or_create` the offense in the table selected by
`offense_source == "federal"`, create the link.  Returns the new database
and the created link row. -/
def add_criminal (db : CrimDB) (first_name last_name : String)
    (offense_type offense_class desc offense_source : String) :
    CrimDB × LinkRow :=
  let cid := db.criminals.length
  let db1 := { db with criminals := db.criminals ++ [(cid, first_name, last_name)] }
  if offense_source = "federal" then
    let r := get_or_create db1.federal_offenses ⟨offense_type, offense_class, desc⟩
    let link : LinkRow := ⟨cid, some r.1, none⟩
    ({ db1 with federal_offenses := r.2,
                offense_links := db1.offense_links ++ [link] }, link)
  else
    let r := get_or_create db1.vacode_offenses ⟨offense_type, offense_class, desc⟩
    let link : LinkRow := ⟨cid, none, some r.1⟩
    ({ db1 with vacode_offenses := r.2,
                offense_links := db1.offense_links ++ [link] }, link)

/-! ### Bulk criminal import — criminals/views.py lines 374–462

Any ORM call inside the row loop may raise (for instance a database
error); this possibility is modelled by a fault oracle consulted at each
database operation, numbered in execution order.  `transaction.atomic`
then has its documented semantics: an exception propagating out of the
block restores the pre-transaction state. -/

/-- Import-loop state: the database plus the number of database
operations performed so far (the fault-oracle clock). -/
structure ImportState where
  db : CrimDB
  ops : Nat
deriving Repr

/-- Run one database operation: raises iff the oracle says the current
operation number fails. -/
def dbOp {α : Type} (fault : Nat → Bool) (s : ImportState)
    (act : CrimDB → CrimDB × α) : Except String (ImportState × α) :=
  if fault s.ops then .error "database error"
  else
    let r := act s.db
    .ok ({ db := r.1, ops := s.ops + 1 }, r.2)

/-- The `current_criminal` / `current_name` loop variables. -/
structure RowCtx where
  current_criminal : Option Nat
  current_name : Option (String × String)
deriving DecidableEq, Repr

/-- One iteration of the row loop of `mass_add_criminals` (lines
416–455): a row with a field count other than 6 is skipped with a
warning (nothing written, count unchanged); otherwise a new criminal is
created when the case-folded name pair differs from `current_name`, the
offense is `get_or_create`d in the table selected by
`src.lower() == "federal"`, and a link row is created (count + 1).
Creating a link while `current_criminal` is unset would violate the
non-null `criminal` key and raise (unreachable, since `current_name` is
set together with `current_criminal`). -/
def process_row (fault : Nat → Bool) (s : ImportState) (ctx : RowCtx)
    (row : List String) : Except String (ImportState × RowCtx × Nat) :=
  match row with
  | [f0, f1, f2, f3, f4, f5] =>
    let fn := pyStrip f0
    let ln := pyStrip f1
    let otype := pyStrip f2
    let oclass := pyStrip f3
    let desc := pyStrip f4
    let src := pyStrip f5
    let row_name := (pyLower fn, pyLower ln)
    let step1 : Except String (ImportState × Nat × RowCtx) :=
      if ctx.current_name ≠ some row_name then
        match dbOp fault s (fun db =>
          ({ db with criminals := db.criminals ++ [(db.criminals.length, fn, ln)] },
           db.criminals.length)) with
        | .error e => .error e
        | .ok (s', cid) => .ok (s', cid, ⟨some cid, some row_name⟩)
      else
        match ctx.current_criminal with
        | some cid => .ok (s, cid, ctx)
        | none => .error "null criminal key"
    match step1 with
    | .error e => .error e
    | .ok (s1, cid, ctx') =>
      let isFed := pyLower src = "federal"
      match dbOp fault s1 (fun db =>
        if isFed then
          let r := get_or_create db.federal_offenses ⟨otype, oclass, desc⟩
          ({ db with federal_offenses := r.2 }, (some r.1, (none : Option Nat)))
        else
          let r := get_or_create db.vacode_offenses ⟨otype, oclass, desc⟩
          ({ db with vacode_offenses := r.2 }, ((none : Option Nat), some r.1))) with
      | .error e => .error e
      | .ok (s2, keys) =>
        match dbOp fault s2 (fun db =>
          ({ db with offense_links := db.offense_links ++ [⟨cid, keys.1, keys.2⟩] },
           ())) with
        | .error e => .error e
        | .ok (s3, _) => .ok (s3, ctx', 1)
  | _ => .ok (s, ctx, 0)

/-- The row loop of `mass_add_criminals`: fold `process_row` over the
data rows, propagating the first raised exception. -/
def process_rows (fault : Nat → Bool) (s : ImportState) (ctx : RowCtx)
    (count : Nat) (rows : List (List String)) :
    Except String (ImportState × Nat) :=
  match rows with
  | [] => .ok (s, count)
  | row :: rest =>
    match process_row fault s ctx row with
    | .error e => .error e
    | .ok (s', ctx', added) => process_rows fault s' ctx' (count + added) rest

/-- Outcome of `mass_add_criminals` (the redirect plus its message). -/
inductive MassAddOutcome
  | notCsv
  | badHeader
  | success (count : Nat)
  | failure (msg : String)
deriving DecidableEq, Repr

/-- The expected CSV header. -/
def expected_header : List String :=
  ["first_name", "last_name", "offense_type", "offense_class",
   "description", "offense_source"]

/-- The view `mass_add_criminals` on an uploaded file already split into CSV rows
(`rows.head?` is `next(reader, None)`): reject non-`.csv` names, reject a
missing or non-matching header, then run the row loop inside
`transaction.atomic()` — on an exception the transaction rolls back and
the `except` branch reports the failure. -/
def mass_add_criminals (fault : Nat → Bool) (db : CrimDB) (fileName : String)
    (rows : List (List String)) : CrimDB × MassAddOutcome :=
  if ¬ pyEndsWith fileName ".csv" then (db, .notCsv)
  else
    match rows.head? with
    | none => (db, .badHeader)
    | some h =>
      if h.map (fun x => pyLower (pyStrip x)) ≠ expected_header then (db, .badHeader)
      else
        match process_rows fault { db := db, ops := 0 } ⟨none, none⟩ 0 rows.tail with
        | .ok r => (r.1.db, .success r.2)
        | .error e => (db, .failure e)

/-- The all-clear fault oracle: no database operation raises. -/
def noFault : Nat → Bool := fun _ => false

/-! ### User model — user/models.py -/

/-- Output of `make_password` under the ideal-hash assumption: the hash of
two strings is equal exactly when the strings are. -/
structure Hashed where
  raw : String
deriving DecidableEq, Repr

/-- Django `django.contrib.auth.hashers.make_password`. -/
def make_password (s : String) : Hashed := ⟨s⟩

/-- Django `check_password(raw, encoded)`: a `None`
stored hash is unusable and never matches. -/
def check_password (raw : String) (encoded : Option Hashed) : Bool :=
  match encoded with
  | some h => raw == h.raw
  | none => false

/-- A `CustomUser` row: the fields the verified views touch.  Dates are
day ordinals (`Int`). -/
structure CustomUser where
  id : Nat
  username : String
  email : String
  password : Hashed
  security_question : Option String
  security_answer : Option Hashed
  first_login : Bool
  is_superuser : Bool
  expiration_date : Option Int
deriving DecidableEq, Repr

/-- The method `CustomUser.is_expired` (models.py lines 74–80):
`self.expiration_date and timezone.now().date() > self.expiration_date`,
evaluated at the current date `today`; a `None` expiration date
short-circuits to falsy. -/
def is_expired (today : Int) (u : CustomUser) : Bool :=
  match u.expiration_date with
  | none => false
  | some d => today > d

/-- The method `CustomUser.set_security_answer`: store `make_password(raw_answer)`. -/
def set_security_answer (u : CustomUser) (raw_answer : String) : CustomUser :=
  { u with security_answer := some (make_password raw_answer) }

/-! ### Account recovery — user/views.py lines 105–210

The server-side session holds the two recovery keys; `none` at the outer
`Option` means the key is absent (expired or never set), and the stored
security question may itself be `None` in the database. -/

/-- The recovery session keys.  `session.flush()` clears both. -/
structure Session where
  recovery_user_id : Option Nat
  security_question : Option (Option String)
deriving DecidableEq, Repr

/-- Python truthiness of `session.get("recovery_user_id")`: falsy when
absent or 0. -/
def pyTruthyId : Option Nat → Bool
  | none => false
  | some n => n ≠ 0

/-- Python truthiness of `session.get("security_question")`: falsy when
absent, stored `None`, or the empty string. -/
def pyTruthyQuestion : Option (Option String) → Bool
  | none => false
  | some none => false
  | some (some s) => s ≠ ""

/-- A view's answer: `render(template, messages)` or `redirect(name)`. -/
inductive Resp
  | render (template : String) (msgs : List String)
  | redirect (target : String)
deriving DecidableEq, Repr

/-- The view `account_recovery_step1` on a POST (lines 116–128): look up the
account whose username and email both match; on success store its id and
security question in the session and redirect to step 2 (the 600-second
session expiry is delegated to the session store and not modelled); on
failure leave the session alone and re-render the form. -/
def account_recovery_step1 (db : List CustomUser) (session : Session)
    (username email : String) : Session × Resp :=
  match db.find? (fun u => u.username == username && u.email == email) with
  | some user =>
    ({ recovery_user_id := some user.id,
       security_question := some user.security_question },
     .redirect "account_recovery_step2")
  | none =>
    (session,
     .render "users/account_recovery_step1.html"
       ["User with that username and email does not exist."])

/-- The view `account_recovery_step2` (lines 131–161): with either session key
falsy, redirect to step 1; on a POST, check the stripped answer against
the stored hashed answer and redirect to step 3 on a match.  `post` is
the submitted `security_answer` (`none` for a GET). -/
def account_recovery_step2 (db : List CustomUser) (session : Session)
    (post : Option String) : Session × Resp :=
  if (! pyTruthyId session.recovery_user_id
      || ! pyTruthyQuestion session.security_question) then
    (session, .redirect "account_recovery_step1")
  else
    match post with
    | some answer =>
      match db.find? (fun u => u.id == session.recovery_user_id.getD 0) with
      | some user =>
        if check_password (pyStrip answer) user.security_answer then
          (session, .redirect "account_recovery_step3")
        else
          (session, .render "users/account_recovery_step2.html"
            ["Incorrect security answer."])
      | none =>
        (session, .redirect "account_recovery_step1")
    | none => (session, .render "users/account_recovery_step2.html" [])

/-- The view `account_recovery_step3` (lines 164–210): only `recovery_user_id` is
required; a POST carries `(new_password, new_password_confirm)`.  The
strength policy `validate_ok` stands for the configured Django password
validators (an external collaborator).  On success the user row is
updated with the new hash and the whole session is flushed. -/
def account_recovery_step3 (validate_ok : String → CustomUser → Bool)
    (db : List CustomUser) (session : Session)
    (post : Option (String × String)) : List CustomUser × Session × Resp :=
  if ! pyTruthyId session.recovery_user_id then
    (db, session, .redirect "account_recovery_step1")
  else
    match post with
    | some (new_password, new_password_confirm) =>
      if new_password ≠ new_password_confirm then
        (db, session,
         .render "users/account_recovery_step3.html" ["Passwords do not match."])
      else
        match db.find? (fun u => u.id == session.recovery_user_id.getD 0) with
        | some user =>
          if ! validate_ok new_password user then
            (db, session,
             .render "users/account_recovery_step3.html"
               ["Password validation error"])
          else
            (db.map (fun u =>
               if u.id == user.id then { u with password := make_password new_password }
               else u),
             { recovery_user_id := none, security_question := none },
             .redirect "login")
        | none => (db, session, .redirect "account_recovery_step1")
    | none => (db, session, .render "users/account_recovery_step3.html" [])

/-! ### Expired-account sweep — user/tasks.py lines 13–30 -/

/-- The filter `expiration_date__lte=now()`: SQL `<=` is false on NULL. -/
def expiredPred (now : Int) (u : CustomUser) : Bool :=
  match u.expiration_date with
  | some d => d ≤ now
  | none => false

/-- The task `delete_expired_users`: delete every account whose expiration date is
`<=` now and report how many were deleted (the `if count:` guard skips
the delete call when nothing matches). -/
def delete_expired_users (now : Int) (users : List CustomUser) :
    List CustomUser × Nat :=
  let count := (users.filter (expiredPred now)).length
  if count ≠ 0 then (users.filter (fun u => ! expiredPred now u), count)
  else (users, count)

/-! ### Analysis devices and concrete inputs -/

/-- The step `ghoStep` restricted to links that carry an offense: the device for
characterising the fold in `get_highest_offense`. -/
def candStep (acc : Nat × Option (String × OffenseRec))
    (c : String × OffenseRec) : Nat × Option (String × OffenseRec) :=
  if candScore c > acc.1 then (candScore c, some c) else acc

/-- A federal Felony offense row. -/
def fedFelony : OffenseRec := ⟨"Felony", "A", "Robbery"⟩

/-- A Virginia Misdemeanor offense row. -/
def vaMisd : OffenseRec := ⟨"Misdemeanor", "1", "Petty theft"⟩

/-- The spec's Jane Smith: linked to a federal Felony and a state
Misdemeanor. -/
def janeSmith : Criminal :=
  ⟨"Jane", "Smith", [⟨some fedFelony, none⟩, ⟨none, some vaMisd⟩]⟩

/-- An empty criminals database. -/
def emptyDB : CrimDB := ⟨[], [], [], []⟩

/-- A database holding one unrelated criminal, to exhibit rollback. -/
def oneRowDB : CrimDB := ⟨[(0, "Ada", "Byron")], [], [], []⟩

/-- A fault oracle under which the third database operation of an import
raises. -/
def faultAtTwo : Nat → Bool := fun n => n == 2

/-- A CSV data row for John Doe with a federal Felony. -/
def johnRow : List String := ["John", "Doe", "Felony", "A", "Robbery", "federal"]

/-- A second John Doe row (name differing only in case and spacing). -/
def johnRow2 : List String :=
  [" john ", "DOE", "Misdemeanor", "1", "Theft", "virginia"]

/-- A row for a different person. -/
def janeRow : List String := ["Jane", "Roe", "Felony", "2", "Arson", "virginia"]

/-- An account with no security question configured. -/
def noQuestionUser : CustomUser :=
  { id := 7, username := "alice", email := "alice@example.com",
    password := make_password "oldpass", security_question := none,
    security_answer := none, first_login := false, is_superuser := false,
    expiration_date := none }

/-- An account whose stored security answer is (the hash of) "blue". -/
def blueUser : CustomUser :=
  { id := 3, username := "bob", email := "bob@example.com",
    password := make_password "pw", security_question := some "Colour?",
    security_answer := some (make_password "blue"), first_login := false,
    is_superuser := false, expiration_date := none }

/-- A strength policy that accepts every password (standing for a run of
the configured validators in which the submitted password passes). -/
def allowPolicy : String → CustomUser → Bool := fun _ _ => true

/-- A strength policy that rejects every password. -/
def rejectPolicy : String → CustomUser → Bool := fun _ _ => false

/-! ## Theorems -/

/-- C8: `is_expired` compares the current date to `expiration_date` with
a strict greater-than: an account expiring today is not expired, one
expiring tomorrow is not expired, one that expired yesterday is expired,
and an account with no expiration date is never expired. -/
theorem is_expired_strict_gt (today : Int) (u : CustomUser) :
    (u.expiration_date = some today → is_expired today u = false)
    ∧ (u.expiration_date = some (today + 1) → is_expired today u = false)
    ∧ (u.expiration_date = some (today - 1) → is_expired today u = true)
    ∧ (u.expiration_date = none → is_expired today u = false)
    ∧ (∀ d, u.expiration_date = some d →
        (is_expired today u = true ↔ d < today)) := by
  refine ⟨?_, ?_, ?_, ?_, ?_⟩
  · intro h; simp [is_expired, h]
  · intro h; simp [is_expired, h]
  · intro h; simp [is_expired, h]
  · intro h; simp [is_expired, h]
  · intro d h; simp [is_expired, h]

/-- Witness for `is_expired_strict_gt` at concrete accounts. -/
theorem is_expired_strict_gt_witness :
    is_expired 100 { noQuestionUser with expiration_date := some 100 } = false
    ∧ is_expired 100 { noQuestionUser with expiration_date := some 101 } = false
    ∧ is_expired 100 { noQuestionUser with expiration_date := some 99 } = true
    ∧ is_expired 100 noQuestionUser = false :=
  ⟨(is_expired_strict_gt 100 _).1 rfl,
   (is_expired_strict_gt 100 _).2.1 rfl,
   (is_expired_strict_gt 100 _).2.2.1 rfl,
   (is_expired_strict_gt 100 _).2.2.2.1 rfl⟩

/-- C9: the expired-account sweep deletes exactly the accounts whose
expiration date is `<=` now, returns the number deleted, and is
idempotent: an immediate second run deletes zero accounts and leaves the
table unchanged. -/
theorem delete_expired_users_exact_and_idempotent (now : Int)
    (users : List CustomUser) :
    (delete_expired_users now users).1
        = users.filter (fun u => ! expiredPred now u)
    ∧ (delete_expired_users now users).2
        = (users.filter (expiredPred now)).length
    ∧ delete_expired_users now (delete_expired_users now users).1
        = ((delete_expired_users now users).1, 0) := by
  have hsub : ∀ l : List CustomUser,
      (l.filter (fun u => ! expiredPred now u)).filter (expiredPred now) = [] := by
    intro l
    rw [List.filter_filter]
    apply List.filter_eq_nil_iff.mpr
    intro a _
    simp
  have hfix : ∀ l : List CustomUser,
      ((l.filter (expiredPred now)).length = 0) →
        l.filter (fun u => ! expiredPred now u) = l := by
    intro l h0
    rw [List.length_eq_zero] at h0
    apply List.filter_eq_self.mpr
    intro a ha
    have := List.filter_eq_nil_iff.mp h0 a ha
    simp_all
  have hmain : ∀ l : List CustomUser, delete_expired_users now l
      = (l.filter (fun u => ! expiredPred now u),
         (l.filter (expiredPred now)).length) := by
    intro l
    unfold delete_expired_users
    by_cases h : (l.filter (expiredPred now)).length ≠ 0
    · rw [if_pos h]
    · push_neg at h
      rw [if_neg (by omega)]
      rw [hfix l h, h]
  have h0 : (List.filter (expiredPred now)
      (users.filter (fun u => ! expiredPred now u))).length = 0 := by
    rw [hsub users]; rfl
  refine ⟨by rw [hmain], by rw [hmain], ?_⟩
  rw [hmain users]
  dsimp only
  rw [hmain, hsub users, hfix _ h0]
  rfl

/-- C6: in recovery step 3 with a valid `recovery_user_id` in the
session, a POST whose two password fields differ leaves the account
table unchanged (the mismatch is reported and nothing is written), and
likewise when the new password fails the strength policy. -/
theorem step3_failure_writes_nothing (validate_ok : String → CustomUser → Bool)
    (db : List CustomUser) (session : Session) (pw pwc : String)
    (huid : pyTruthyId session.recovery_user_id = true) :
    (pw ≠ pwc →
      account_recovery_step3 validate_ok db session (some (pw, pwc))
        = (db, session,
           .render "users/account_recovery_step3.html" ["Passwords do not match."]))
    ∧ (∀ user, pw = pwc →
        db.find? (fun u => u.id == session.recovery_user_id.getD 0) = some user →
        validate_ok pw user = false →
        account_recovery_step3 validate_ok db session (some (pw, pwc))
          = (db, session,
             .render "users/account_recovery_step3.html"
               ["Password validation error"])) := by
  constructor
  · intro hne
    unfold account_recovery_step3
    rw [huid]
    simp [hne]
  · intro user heq hfind hv
    subst heq
    unfold account_recovery_step3
    rw [huid]
    simp [hfind, hv]

/-- Witness for `step3_failure_writes_nothing`: a mismatching pair and a
policy-rejected pair both leave `blueUser`'s row unchanged. -/
theorem step3_failure_writes_nothing_witness :
    account_recovery_step3 allowPolicy [blueUser] ⟨some 3, some (some "Colour?")⟩
        (some ("newpass1", "newpass2"))
      = ([blueUser], ⟨some 3, some (some "Colour?")⟩,
         .render "users/account_recovery_step3.html" ["Passwords do not match."])
    ∧ account_recovery_step3 rejectPolicy [blueUser] ⟨some 3, some (some "Colour?")⟩
        (some ("newpass1", "newpass1"))
      = ([blueUser], ⟨some 3, some (some "Colour?")⟩,
         .render "users/account_recovery_step3.html"
           ["Password validation error"]) :=
  ⟨(step3_failure_writes_nothing allowPolicy [blueUser] _ "newpass1" "newpass2"
      (by decide)).1 (by decide),
   (step3_failure_writes_nothing rejectPolicy [blueUser] _ "newpass1" "newpass1"
      (by decide)).2 blueUser rfl (by decide) rfl⟩

/-- C7: the step-2 security-answer check strips surrounding whitespace
from the submitted answer and then compares exactly (case-sensitively)
against the stored hashed answer: with a valid session and a stored
answer hash of `stored`, the POST succeeds iff the trimmed input equals
`stored`. -/
theorem step2_answer_trimmed (db : List CustomUser) (session : Session)
    (stored : String) (user : CustomUser)
    (h1 : pyTruthyId session.recovery_user_id = true)
    (h2 : pyTruthyQuestion session.security_question = true)
    (h3 : db.find? (fun u => u.id == session.recovery_user_id.getD 0) = some user)
    (h4 : user.security_answer = some (make_password stored)) :
    ∀ ans, ((account_recovery_step2 db session (some ans)).2
        = Resp.redirect "account_recovery_step3") ↔ pyStrip ans = stored := by
  intro ans
  unfold account_recovery_step2
  rw [h1, h2]
  simp only [Bool.not_true, Bool.or_self, Bool.false_eq_true, if_false, h3]
  rw [h4]
  unfold check_password make_password
  by_cases he : pyStrip ans = stored
  · simp [he]
  · simp [he]

/-- Witness for `step2_answer_trimmed`: against a stored answer "blue",
the inputs "blue" and " blue " succeed and "Blue" fails. -/
theorem step2_answer_trimmed_witness :
    ((account_recovery_step2 [blueUser] ⟨some 3, some (some "Colour?")⟩
        (some "blue")).2 = Resp.redirect "account_recovery_step3")
    ∧ ((account_recovery_step2 [blueUser] ⟨some 3, some (some "Colour?")⟩
        (some " blue ")).2 = Resp.redirect "account_recovery_step3")
    ∧ ¬ ((account_recovery_step2 [blueUser] ⟨some 3, some (some "Colour?")⟩
        (some "Blue")).2 = Resp.redirect "account_recovery_step3") :=
  ⟨(step2_answer_trimmed [blueUser] _ "blue" blueUser (by decide) (by decide)
      (by decide) rfl "blue").mpr (by decide),
   (step2_answer_trimmed [blueUser] _ "blue" blueUser (by decide) (by decide)
      (by decide) rfl " blue ").mpr (by decide),
   fun h => by
     have := (step2_answer_trimmed [blueUser] ⟨some 3, some (some "Colour?")⟩
       "blue" blueUser (by decide) (by decide) (by decide) rfl "Blue").mp h
     exact absurd this (by decide)⟩

/-- C10 counterexample: for the account `noQuestionUser` (no security
question), a successful step 1 stores the null question in the session
and step 2 then always bounces back to step 1 — but a request made
directly to step 3 with that same session still resets the password, so
the account CAN reset its password through the recovery flow, refuting
the claim's conclusion. -/
theorem recovery_no_question_cex :
    (account_recovery_step1 [noQuestionUser] ⟨none, none⟩
        "alice" "alice@example.com").1 = ⟨some 7, some none⟩
    ∧ (account_recovery_step2 [noQuestionUser] ⟨some 7, some none⟩
        (some "anything")).2 = Resp.redirect "account_recovery_step1"
    ∧ (account_recovery_step3 allowPolicy [noQuestionUser] ⟨some 7, some none⟩
        (some ("N3wPassw0rd!", "N3wPassw0rd!"))).1
      = [{ noQuestionUser with password := make_password "N3wPassw0rd!" }] := by
  refine ⟨by decide, by decide, by decide⟩

/-- C10 amended: for every account whose security question is null or
empty, a successful recovery step 1 stores that falsy question in the
session and every subsequent access to step 2 redirects back to step 1;
however, step 3 checks only `recovery_user_id`, so a request made
directly to step 3 with the step-1 session and a policy-passing password
still resets the account's password. -/
theorem recovery_no_question_amended (db : List CustomUser) (user : CustomUser)
    (un em pw : String) (s0 : Session) (vok : String → CustomUser → Bool)
    (hq : user.security_question = none ∨ user.security_question = some "")
    (hfind : db.find? (fun u => u.username == un && u.email == em) = some user)
    (hid : user.id ≠ 0)
    (hfind2 : db.find? (fun u => u.id == user.id) = some user)
    (hv : vok pw user = true) :
    account_recovery_step1 db s0 un em
      = (⟨some user.id, some user.security_question⟩,
         Resp.redirect "account_recovery_step2")
    ∧ (∀ post, (account_recovery_step2 db
        ⟨some user.id, some user.security_question⟩ post).2
      = Resp.redirect "account_recovery_step1")
    ∧ (account_recovery_step3 vok db
        ⟨some user.id, some user.security_question⟩ (some (pw, pw))).1
      = db.map (fun u =>
          if u.id == user.id then { u with password := make_password pw } else u) := by
  refine ⟨?_, ?_, ?_⟩
  · unfold account_recovery_step1
    rw [hfind]
  · intro post
    unfold account_recovery_step2
    have hfalsy : pyTruthyQuestion (some user.security_question) = false := by
      rcases hq with h | h <;> simp [h, pyTruthyQuestion]
    rw [hfalsy]
    simp
  · unfold account_recovery_step3
    have htruthy : pyTruthyId (some user.id) = true := by
      simp [pyTruthyId, hid]
    rw [htruthy]
    simp only [Bool.not_true, Bool.false_eq_true, if_false]
    have : (Session.mk (some user.id)
        (some user.security_question)).recovery_user_id.getD 0 = user.id := rfl
    simp [this, hfind2, hv]

/-- Witness for `recovery_no_question_amended` at `noQuestionUser`. -/
theorem recovery_no_question_amended_witness :
    account_recovery_step1 [noQuestionUser] ⟨none, none⟩
        "alice" "alice@example.com"
      = (⟨some 7, some none⟩, Resp.redirect "account_recovery_step2")
    ∧ (∀ post, (account_recovery_step2 [noQuestionUser] ⟨some 7, some none⟩
        post).2 = Resp.redirect "account_recovery_step1")
    ∧ (account_recovery_step3 allowPolicy [noQuestionUser] ⟨some 7, some none⟩
        (some ("Xy9!pass", "Xy9!pass"))).1
      = [noQuestionUser].map (fun u =>
          if u.id == 7 then { u with password := make_password "Xy9!pass" } else u) :=
  recovery_no_question_amended [noQuestionUser] noQuestionUser
    "alice" "alice@example.com" "Xy9!pass" ⟨none, none⟩ allowPolicy
    (Or.inl rfl) (by decide) (by decide) (by decide) rfl

/-- C1: `view_all_criminals` never buckets anyone.  Iterating the
queryset of `get_criminals_with_offenses()` raises `AttributeError` for
every nonempty criminal table (the `Prefetch("offense_links")` lookup
resolves an accessor that `CriminalOffenseLink.criminal`, having no
`related_name`, never generates), shown here at Jane Smith; with an
empty table the view renders six empty buckets.  Moreover the key the
loop would compute for a Felony, "Federal Felonys", is not one of the
six prepared dict keys, so even with the accessor fixed the "Federal
Felons" bucket could never be filled. -/
theorem view_all_criminals_never_buckets :
    view_all_categorize [janeSmith] = Except.error offense_links_error
    ∧ (∀ cs : List Criminal, cs ≠ [] →
        view_all_categorize cs = Except.error offense_links_error)
    ∧ view_all_categorize []
      = Except.ok (categorized_labels.map (fun l => (l, [])))
    ∧ bucket_key "federal" "Felony" = "Federal Felonys"
    ∧ "Federal Felonys" ∉ categorized_labels
    ∧ "Federal Felons" ∈ categorized_labels := by
  refine ⟨by rfl, ?_, by rfl, by decide, by decide, by decide⟩
  intro cs hne
  match cs with
  | [] => exact absurd rfl hne
  | c :: rest => rfl

/-- Witness for `view_all_criminals_never_buckets`: the crash on a
one-row criminal table, obtained from the universally quantified
conjunct. -/
theorem view_all_criminals_never_buckets_witness :
    view_all_categorize [⟨"Mia", "Low", [⟨none, some vaMisd⟩]⟩]
      = Except.error offense_links_error :=
  view_all_criminals_never_buckets.2.1
    [⟨"Mia", "Low", [⟨none, some vaMisd⟩]⟩] (by simp)

/-- If no row of `t` matches `o`, the lookup inside `get_or_create`
misses, whatever the start index. -/
theorem findIdx_none_of_all (t : List OffenseRec) (o : OffenseRec)
    (h : ∀ x ∈ t, (x == o) = false) :
    ∀ i, t.findIdx? (fun x => x == o) i = none := by
  induction t with
  | nil => intro i; rfl
  | cons a t ih =>
    intro i
    rw [List.findIdx?_cons, h a (by simp)]
    simp only [Bool.false_eq_true, if_false]
    exact ih (fun x hx => h x (by simp [hx])) (i + 1)

/-- If no row of `t` matches `o`, the lookup finds the row appended at
the end of `t`, at index `t.length` (offset by the start index). -/
theorem findIdx_append_self (t : List OffenseRec) (o : OffenseRec)
    (h : ∀ x ∈ t, (x == o) = false) :
    ∀ i, (t ++ [o]).findIdx? (fun x => x == o) i = some (i + t.length) := by
  induction t with
  | nil =>
    intro i
    simp [List.findIdx?_cons]
  | cons a t ih =>
    intro i
    rw [List.cons_append, List.findIdx?_cons, h a (by simp)]
    simp only [Bool.false_eq_true, if_false]
    rw [ih (fun x hx => h x (by simp [hx])) (i + 1)]
    congr 1
    simp
    omega

/-- A zero match count means every row fails the match predicate. -/
theorem countMatching_zero_all (t : List OffenseRec) (o : OffenseRec)
    (h : countMatching t o = 0) : ∀ x ∈ t, (x == o) = false := by
  unfold countMatching at h
  rw [List.length_eq_zero] at h
  intro x hx
  simpa using List.filter_eq_nil_iff.mp h x hx

/-- Appending the matching row raises the match count by one. -/
theorem countMatching_append_self (t : List OffenseRec) (o : OffenseRec) :
    countMatching (t ++ [o]) o = countMatching t o + 1 := by
  unfold countMatching
  rw [List.filter_append]
  simp

/-- Calling `get_or_create` on a table with no matching row appends the row. -/
theorem get_or_create_miss (t : List OffenseRec) (o : OffenseRec)
    (h : ∀ x ∈ t, (x == o) = false) :
    get_or_create t o = (t.length, t ++ [o]) := by
  unfold get_or_create
  rw [findIdx_none_of_all t o h 0]

/-- A second `get_or_create` of the same triple returns the same row id
and leaves the table unchanged. -/
theorem get_or_create_again (t : List OffenseRec) (o : OffenseRec) :
    get_or_create (get_or_create t o).2 o = get_or_create t o := by
  unfold get_or_create
  cases hf : t.findIdx? (fun x => x == o) with
  | some i => simp [hf]
  | none =>
    have hall : ∀ x ∈ t, (x == o) = false := by
      intro x hx
      exact List.findIdx?_eq_none_iff.mp hf x hx
    simp only [hf]
    rw [findIdx_append_self t o hall 0]
    simp

/-- C3: offense creation is idempotent under an identical
`(offense_type, offense_class, description)` triple within one
jurisdiction's table: adding the same federal triple twice (with any
names) stores exactly one matching offense row, both created links carry
the same offense id, that id holds the triple, and in general a repeated
`get_or_create` (the shared primitive of the single-add form and the
bulk import) returns the same row without growing the table. -/
theorem offense_creation_idempotent (db : CrimDB)
    (fn1 ln1 fn2 ln2 otype oclass desc : String)
    (h : countMatching db.federal_offenses ⟨otype, oclass, desc⟩ = 0) :
    countMatching
        (add_criminal (add_criminal db fn1 ln1 otype oclass desc "federal").1
            fn2 ln2 otype oclass desc "federal").1.federal_offenses
        ⟨otype, oclass, desc⟩ = 1
    ∧ (add_criminal db fn1 ln1 otype oclass desc "federal").2.federal_offense
        = some db.federal_offenses.length
    ∧ (add_criminal (add_criminal db fn1 ln1 otype oclass desc "federal").1
        fn2 ln2 otype oclass desc "federal").2.federal_offense
        = some db.federal_offenses.length
    ∧ (add_criminal (add_criminal db fn1 ln1 otype oclass desc "federal").1
        fn2 ln2 otype oclass desc
        "federal").1.federal_offenses[db.federal_offenses.length]?
          = some (⟨otype, oclass, desc⟩ : OffenseRec)
    ∧ (∀ t o, get_or_create (get_or_create t o).2 o = get_or_create t o) := by
  have hall := countMatching_zero_all _ _ h
  have h1 : add_criminal db fn1 ln1 otype oclass desc "federal"
      = ({ db with
            criminals := db.criminals ++ [(db.criminals.length, fn1, ln1)],
            federal_offenses := db.federal_offenses ++ [⟨otype, oclass, desc⟩],
            offense_links := db.offense_links
              ++ [⟨db.criminals.length, some db.federal_offenses.length, none⟩] },
         ⟨db.criminals.length, some db.federal_offenses.length, none⟩) := by
    unfold add_criminal
    rw [if_pos rfl]
    simp only []
    rw [get_or_create_miss _ _ hall]
  have h2 : add_criminal (add_criminal db fn1 ln1 otype oclass desc "federal").1
      fn2 ln2 otype oclass desc "federal"
      = (let db1 := (add_criminal db fn1 ln1 otype oclass desc "federal").1
         ({ db1 with
             criminals := db1.criminals ++ [(db1.criminals.length, fn2, ln2)],
             offense_links := db1.offense_links
               ++ [⟨db1.criminals.length, some db.federal_offenses.length, none⟩] },
          ⟨db1.criminals.length, some db.federal_offenses.length, none⟩)) := by
    rw [h1]
    unfold add_criminal
    rw [if_pos rfl]
    simp only []
    rw [get_or_create]
    rw [findIdx_append_self _ _ hall 0]
    simp [h1]
  refine ⟨?_, by rw [h1], by rw [h2, h1], ?_, fun t o => get_or_create_again t o⟩
  · rw [h2, h1]
    simp only []
    rw [countMatching_append_self _ _, h]
  · rw [h2, h1]
    simp only []
    exact List.getElem?_concat_length _ _

/-- Witness for `offense_creation_idempotent` on an empty database. -/
theorem offense_creation_idempotent_witness :
    countMatching
        (add_criminal (add_criminal emptyDB "John" "Doe" "Felony" "A" "Robbery"
            "federal").1 "Jane" "Roe" "Felony" "A" "Robbery" "federal").1.federal_offenses
        ⟨"Felony", "A", "Robbery"⟩ = 1
    ∧ (add_criminal emptyDB "John" "Doe" "Felony" "A" "Robbery"
        "federal").2.federal_offense = some 0 :=
  ⟨(offense_creation_idempotent emptyDB "John" "Doe" "Jane" "Roe"
      "Felony" "A" "Robbery" (by decide)).1,
   (offense_creation_idempotent emptyDB "John" "Doe" "Jane" "Roe"
      "Felony" "A" "Robbery" (by decide)).2.1⟩

/-- The step `ghoStep` only looks at the link's attached offense. -/
theorem ghoStep_as_cand (acc : Nat × Option (String × OffenseRec))
    (l : OffenseLink) :
    ghoStep acc l
      = match link_offense l with
        | none => acc
        | some c => candStep acc c := by
  unfold ghoStep candStep
  cases link_offense l with
  | none => rfl
  | some c => rfl

/-- Folding `ghoStep` over the links is folding `candStep` over the
candidates. -/
theorem foldl_gho_eq_cand (links : List OffenseLink) :
    ∀ acc, links.foldl ghoStep acc = (candidates links).foldl candStep acc := by
  induction links with
  | nil => intro acc; rfl
  | cons l ls ih =>
    intro acc
    rw [List.foldl_cons, ghoStep_as_cand, candidates, List.filterMap_cons]
    cases link_offense l with
    | none => exact ih acc
    | some c => rw [List.foldl_cons]; exact ih (candStep acc c)

/-- The fold of `candStep` computes the running maximum, and the winning
candidate is the first one attaining the overall maximum whenever that
maximum beats the initial score. -/
theorem foldl_candStep_spec (cs : List (String × OffenseRec)) :
    ∀ (m : Nat) (r : Option (String × OffenseRec)),
      cs.foldl candStep (m, r)
        = (max m (maxScoreOf cs),
           if m < maxScoreOf cs then
             cs.find? (fun c => candScore c == maxScoreOf cs)
           else r) := by
  induction cs with
  | nil =>
    intro m r
    simp [maxScoreOf]
  | cons c cs ih =>
    intro m r
    have hmax : maxScoreOf (c :: cs) = max (candScore c) (maxScoreOf cs) := rfl
    rw [List.foldl_cons, hmax]
    by_cases hc : candScore c > m
    · have hstep : candStep (m, r) c = (candScore c, some c) := by
        simp [candStep, hc]
      rw [hstep, ih, Prod.mk.injEq]
      refine ⟨by omega, ?_⟩
      by_cases hge : maxScoreOf cs ≤ candScore c
      · have e1 : ¬ candScore c < maxScoreOf cs := by omega
        have e2 : m < max (candScore c) (maxScoreOf cs) := by omega
        rw [if_neg e1, if_pos e2]
        have e3 : max (candScore c) (maxScoreOf cs) = candScore c := by omega
        rw [e3, List.find?_cons_of_pos _ (by simp)]
      · push_neg at hge
        have e2 : m < max (candScore c) (maxScoreOf cs) := by omega
        rw [if_pos hge, if_pos e2]
        have e3 : max (candScore c) (maxScoreOf cs) = maxScoreOf cs := by omega
        rw [e3, List.find?_cons_of_neg _ (by simp; omega)]
    · push_neg at hc
      have hstep : candStep (m, r) c = (m, r) := by
        simp [candStep, show ¬ m < candScore c from by omega]
      rw [hstep, ih, Prod.mk.injEq]
      refine ⟨by omega, ?_⟩
      by_cases hlt : m < maxScoreOf cs
      · have e2 : m < max (candScore c) (maxScoreOf cs) := by omega
        rw [if_pos hlt, if_pos e2]
        have e3 : max (candScore c) (maxScoreOf cs) = maxScoreOf cs := by omega
        rw [e3, List.find?_cons_of_neg _ (by simp; omega)]
      · have e2 : ¬ m < max (candScore c) (maxScoreOf cs) := by omega
        rw [if_neg hlt, if_neg e2]

/-- The loop of `get_highest_offense` refines the spec wording. -/
theorem gho_loop_eq_spec (links : List OffenseLink) :
    gho_loop links
      = (maxScoreOf (candidates links), highest_offense_spec links) := by
  unfold gho_loop highest_offense_spec
  rw [foldl_gho_eq_cand, foldl_candStep_spec]
  simp only [Nat.zero_max]

/-- C2: `get_highest_offense` never returns the claimed first-maximal
offense, because its first statement `criminal.offense_links.all()`
raises `AttributeError` on every `Criminal` instance
(`CriminalOffenseLink.criminal` has no `related_name`).  The loop body
it would then run (lines 87–101) does implement the claimed contract,
matching the function's own docstring: Felony = 3 > Misdemeanor = 2 >
Infraction = 1 with every other offense type scoring 0 and never
selected, and the first link in iteration order attaining the maximal
priority wins. -/
theorem highest_offense_contract :
    (∀ c : Criminal, get_highest_offense c
        = Except.error offense_links_error)
    ∧ (∀ links, gho_loop links
        = (maxScoreOf (candidates links), highest_offense_spec links))
    ∧ OFFENSE_PRIORITY "Felony" = 3
    ∧ OFFENSE_PRIORITY "Misdemeanor" = 2
    ∧ OFFENSE_PRIORITY "Infraction" = 1
    ∧ (∀ t, t ≠ "Felony" → t ≠ "Misdemeanor" → t ≠ "Infraction" →
        OFFENSE_PRIORITY t = 0)
    ∧ (∀ links c, (gho_loop links).2 = some c → 0 < candScore c) := by
  refine ⟨fun c => rfl, gho_loop_eq_spec, rfl, rfl, rfl, ?_, ?_⟩
  · intro t h1 h2 h3
    unfold OFFENSE_PRIORITY
    rw [if_neg h1, if_neg h2, if_neg h3]
  · intro links c hc
    rw [gho_loop_eq_spec] at hc
    unfold highest_offense_spec at hc
    simp only [] at hc
    by_cases h : 0 < maxScoreOf (candidates links)
    · rw [if_pos h] at hc
      have := List.find?_some hc
      simp only [beq_iff_eq] at this
      omega
    · rw [if_neg h] at hc
      exact absurd hc (by simp)

/-- Witness for `highest_offense_contract`: the raise at Jane Smith,
the loop contract on her link rows, an unmapped offense type, and the
selected candidate's positive score. -/
theorem highest_offense_contract_witness :
    get_highest_offense janeSmith = Except.error offense_links_error
    ∧ gho_loop janeSmith.criminaloffenselink_set
      = (maxScoreOf (candidates janeSmith.criminaloffenselink_set),
         highest_offense_spec janeSmith.criminaloffenselink_set)
    ∧ OFFENSE_PRIORITY "Burglary" = 0
    ∧ 0 < candScore ("federal", fedFelony) :=
  ⟨highest_offense_contract.1 janeSmith,
   highest_offense_contract.2.1 janeSmith.criminaloffenselink_set,
   highest_offense_contract.2.2.2.2.2.1 "Burglary" (by decide) (by decide)
     (by decide),
   highest_offense_contract.2.2.2.2.2.2 janeSmith.criminaloffenselink_set
     ("federal", fedFelony) (by decide)⟩

/-- C4: the bulk import is atomic.  A missing or non-matching header
aborts the import with the database untouched (before any row is
written), and if any database operation raises during row processing the
`transaction.atomic` block rolls back every Person, Offense and Link
created by the import, leaving the database exactly as it was. -/
theorem mass_add_atomic (fault : Nat → Bool) (db : CrimDB) (fileName : String)
    (rows : List (List String)) :
    ((mass_add_criminals fault db fileName rows).2 = MassAddOutcome.badHeader →
      (mass_add_criminals fault db fileName rows).1 = db)
    ∧ (∀ h rest, rows = h :: rest →
        h.map (fun x => pyLower (pyStrip x)) ≠ expected_header →
        pyEndsWith fileName ".csv" = true →
        mass_add_criminals fault db fileName rows = (db, MassAddOutcome.badHeader))
    ∧ (∀ e,
        (mass_add_criminals fault db fileName rows).2 = MassAddOutcome.failure e →
        (mass_add_criminals fault db fileName rows).1 = db) := by
  unfold mass_add_criminals
  by_cases hcsv : pyEndsWith fileName ".csv" = true
  · rw [if_neg (by simp [hcsv])]
    cases rows with
    | nil =>
      refine ⟨fun _ => rfl, ?_, ?_⟩
      · intro h rest heq
        exact absurd heq (by simp)
      · intro e he
        exact absurd he (by simp)
    | cons h rest =>
      simp only [List.head?_cons, List.tail_cons]
      by_cases hh : h.map (fun x => pyLower (pyStrip x)) ≠ expected_header
      · rw [if_pos hh]
        refine ⟨fun _ => rfl, fun _ _ _ _ _ => rfl, ?_⟩
        intro e he
        exact absurd he (by simp)
      · rw [if_neg hh]
        cases hp : process_rows fault { db := db, ops := 0 } ⟨none, none⟩ 0 rest with
        | ok r =>
          refine ⟨?_, ?_, ?_⟩
          · intro hbad
            exact absurd hbad (by simp)
          · intro h' rest' heq hne _
            cases heq
            exact absurd hne hh
          · intro e he
            exact absurd he (by simp)
        | error e =>
          exact ⟨fun _ => rfl, fun h' rest' heq hne _ => (by cases heq; exact absurd hne hh),
                 fun _ _ => rfl⟩
  · rw [if_pos (by simpa using hcsv)]
    refine ⟨?_, ?_, ?_⟩
    · intro hbad
      exact absurd hbad (by simp)
    · intro h rest heq hne hcsv2
      exact absurd hcsv2 hcsv
    · intro e he
      exact absurd he (by simp)

/-- Witness for `mass_add_atomic`: with a fault injected at the link
creation of the first data row (after a Person and an Offense were
already created), the import reports a failure and the database is
restored to its pre-import contents; and a wrong header aborts with no
writes. -/
theorem mass_add_atomic_witness :
    (mass_add_criminals faultAtTwo oneRowDB "import.csv"
        [expected_header, johnRow]).1 = oneRowDB
    ∧ (mass_add_criminals faultAtTwo oneRowDB "import.csv"
        [expected_header, johnRow]).2 = MassAddOutcome.failure "database error"
    ∧ mass_add_criminals noFault oneRowDB "import.csv" [["bogus"], johnRow]
        = (oneRowDB, MassAddOutcome.badHeader) :=
  ⟨(mass_add_atomic faultAtTwo oneRowDB "import.csv"
      [expected_header, johnRow]).2.2 "database error" (by decide),
   by decide,
   (mass_add_atomic noFault oneRowDB "import.csv" [["bogus"], johnRow]).2.1
     ["bogus"] [johnRow] rfl (by decide) (by decide)⟩

/-- Processing a fault-free valid row whose case-folded name pair
differs from `current_name` creates one new criminal and one link to
it. -/
theorem process_row_new (s : ImportState) (ctx : RowCtx)
    (f0 f1 f2 f3 f4 f5 : String)
    (hname : ctx.current_name ≠ some (pyLower (pyStrip f0), pyLower (pyStrip f1))) :
    ∃ s' : ImportState,
      process_row noFault s ctx [f0, f1, f2, f3, f4, f5]
        = Except.ok (s', (⟨some s.db.criminals.length,
            some (pyLower (pyStrip f0), pyLower (pyStrip f1))⟩ : RowCtx), 1)
      ∧ s'.db.criminals
          = s.db.criminals ++ [(s.db.criminals.length, pyStrip f0, pyStrip f1)]
      ∧ s'.db.offense_links.map LinkRow.criminal
          = s.db.offense_links.map LinkRow.criminal ++ [s.db.criminals.length] := by
  by_cases hf : pyLower (pyStrip f5) = "federal"
  · refine ⟨⟨⟨s.db.criminals ++ [(s.db.criminals.length, pyStrip f0, pyStrip f1)],
       (get_or_create s.db.federal_offenses ⟨pyStrip f2, pyStrip f3, pyStrip f4⟩).2,
       s.db.vacode_offenses,
       s.db.offense_links ++ [⟨s.db.criminals.length,
         some (get_or_create s.db.federal_offenses
           ⟨pyStrip f2, pyStrip f3, pyStrip f4⟩).1, none⟩]⟩,
       s.ops + 1 + 1 + 1⟩, ?_, rfl, by simp⟩
    simp [process_row, dbOp, noFault, hname, hf]
  · refine ⟨⟨⟨s.db.criminals ++ [(s.db.criminals.length, pyStrip f0, pyStrip f1)],
       s.db.federal_offenses,
       (get_or_create s.db.vacode_offenses ⟨pyStrip f2, pyStrip f3, pyStrip f4⟩).2,
       s.db.offense_links ++ [⟨s.db.criminals.length, none,
         some (get_or_create s.db.vacode_offenses
           ⟨pyStrip f2, pyStrip f3, pyStrip f4⟩).1⟩]⟩,
       s.ops + 1 + 1 + 1⟩, ?_, rfl, by simp⟩
    simp [process_row, dbOp, noFault, hname, hf]

/-- Processing a fault-free valid row whose case-folded name pair equals
`current_name` creates no criminal and links the row's offense to the
current criminal. -/
theorem process_row_same (s : ImportState) (ctx : RowCtx) (cid : Nat)
    (f0 f1 f2 f3 f4 f5 : String)
    (hname : ctx.current_name = some (pyLower (pyStrip f0), pyLower (pyStrip f1)))
    (hcid : ctx.current_criminal = some cid) :
    ∃ s' : ImportState,
      process_row noFault s ctx [f0, f1, f2, f3, f4, f5]
        = Except.ok (s', ctx, 1)
      ∧ s'.db.criminals = s.db.criminals
      ∧ s'.db.offense_links.map LinkRow.criminal
          = s.db.offense_links.map LinkRow.criminal ++ [cid] := by
  by_cases hf : pyLower (pyStrip f5) = "federal"
  · refine ⟨⟨⟨s.db.criminals,
       (get_or_create s.db.federal_offenses ⟨pyStrip f2, pyStrip f3, pyStrip f4⟩).2,
       s.db.vacode_offenses,
       s.db.offense_links ++ [⟨cid,
         some (get_or_create s.db.federal_offenses
           ⟨pyStrip f2, pyStrip f3, pyStrip f4⟩).1, none⟩]⟩,
       s.ops + 1 + 1⟩, ?_, rfl, by simp⟩
    simp [process_row, dbOp, noFault, hname, hcid, hf]
  · refine ⟨⟨⟨s.db.criminals, s.db.federal_offenses,
       (get_or_create s.db.vacode_offenses ⟨pyStrip f2, pyStrip f3, pyStrip f4⟩).2,
       s.db.offense_links ++ [⟨cid, none,
         some (get_or_create s.db.vacode_offenses
           ⟨pyStrip f2, pyStrip f3, pyStrip f4⟩).1⟩]⟩,
       s.ops + 1 + 1⟩, ?_, rfl, by simp⟩
    simp [process_row, dbOp, noFault, hname, hcid, hf]

/-- Two adjacent data rows with a case-insensitively equal name pair
yield a single new Person (named from the first row) carrying both new
links. -/
theorem mass_add_adjacent_rows (db : CrimDB)
    (f1 l1 o1 c1 d1 src1 f2 l2 o2 c2 d2 src2 : String)
    (h12f : pyLower (pyStrip f2) = pyLower (pyStrip f1))
    (h12l : pyLower (pyStrip l2) = pyLower (pyStrip l1)) :
    (mass_add_criminals noFault db "import.csv"
        [expected_header, [f1, l1, o1, c1, d1, src1],
         [f2, l2, o2, c2, d2, src2]]).1.criminals
      = db.criminals ++ [(db.criminals.length, pyStrip f1, pyStrip l1)]
    ∧ (mass_add_criminals noFault db "import.csv"
        [expected_header, [f1, l1, o1, c1, d1, src1],
         [f2, l2, o2, c2, d2, src2]]).1.offense_links.map LinkRow.criminal
      = db.offense_links.map LinkRow.criminal
        ++ [db.criminals.length, db.criminals.length] := by
  obtain ⟨sA, heqA, hcA, hlA⟩ :=
    process_row_new ⟨db, 0⟩ ⟨none, none⟩ f1 l1 o1 c1 d1 src1 (by simp)
  have hname2 : (⟨some db.criminals.length,
      some (pyLower (pyStrip f1), pyLower (pyStrip l1))⟩ : RowCtx).current_name
      = some (pyLower (pyStrip f2), pyLower (pyStrip l2)) := by
    rw [h12f, h12l]
  obtain ⟨sB, heqB, hcB, hlB⟩ :=
    process_row_same sA _ db.criminals.length f2 l2 o2 c2 d2 src2 hname2 rfl
  have hmass : mass_add_criminals noFault db "import.csv"
      [expected_header, [f1, l1, o1, c1, d1, src1], [f2, l2, o2, c2, d2, src2]]
      = (sB.db, MassAddOutcome.success 2) := by
    unfold mass_add_criminals
    rw [if_neg (by decide)]
    simp only [List.head?_cons, List.tail_cons]
    rw [if_neg (by decide)]
    unfold process_rows
    rw [heqA]
    unfold process_rows
    rw [heqB]
    unfold process_rows
    rfl
  rw [hmass]
  constructor
  · rw [hcB, hcA]
  · rw [hlB, hlA]
    simp

/-- The same two rows separated by a row with a different name pair
yield three new Persons: the two same-named rows are split into two
distinct Person records. -/
theorem mass_add_separated_rows (db : CrimDB)
    (f1 l1 o1 c1 d1 src1 f2 l2 o2 c2 d2 src2 f3 l3 o3 c3 d3 src3 : String)
    (h12f : pyLower (pyStrip f2) = pyLower (pyStrip f1))
    (h12l : pyLower (pyStrip l2) = pyLower (pyStrip l1))
    (h13 : (pyLower (pyStrip f3), pyLower (pyStrip l3))
        ≠ (pyLower (pyStrip f1), pyLower (pyStrip l1))) :
    (mass_add_criminals noFault db "import.csv"
        [expected_header, [f1, l1, o1, c1, d1, src1],
         [f3, l3, o3, c3, d3, src3], [f2, l2, o2, c2, d2, src2]]).1.criminals
      = db.criminals
        ++ [(db.criminals.length, pyStrip f1, pyStrip l1),
            (db.criminals.length + 1, pyStrip f3, pyStrip l3),
            (db.criminals.length + 2, pyStrip f2, pyStrip l2)]
    ∧ (mass_add_criminals noFault db "import.csv"
        [expected_header, [f1, l1, o1, c1, d1, src1],
         [f3, l3, o3, c3, d3, src3], [f2, l2, o2, c2, d2, src2]]).1.offense_links.map
          LinkRow.criminal
      = db.offense_links.map LinkRow.criminal
        ++ [db.criminals.length, db.criminals.length + 1,
            db.criminals.length + 2] := by
  obtain ⟨sA, heqA, hcA, hlA⟩ :=
    process_row_new ⟨db, 0⟩ ⟨none, none⟩ f1 l1 o1 c1 d1 src1 (by simp)
  have hlenA : sA.db.criminals.length = db.criminals.length + 1 := by
    rw [hcA]; simp
  obtain ⟨sC, heqC, hcC, hlC⟩ :=
    process_row_new sA
      ⟨some db.criminals.length, some (pyLower (pyStrip f1), pyLower (pyStrip l1))⟩
      f3 l3 o3 c3 d3 src3
      (by intro hcontra; exact h13 (Option.some.inj hcontra).symm)
  have hlenC : sC.db.criminals.length = db.criminals.length + 2 := by
    rw [hcC]; simp [hlenA]
  obtain ⟨sD, heqD, hcD, hlD⟩ :=
    process_row_new sC
      ⟨some sA.db.criminals.length, some (pyLower (pyStrip f3), pyLower (pyStrip l3))⟩
      f2 l2 o2 c2 d2 src2
      (by
        intro hcontra
        have h2 := Option.some.inj hcontra
        rw [h12f, h12l] at h2
        exact h13 h2)
  have hmass : mass_add_criminals noFault db "import.csv"
      [expected_header, [f1, l1, o1, c1, d1, src1],
       [f3, l3, o3, c3, d3, src3], [f2, l2, o2, c2, d2, src2]]
      = (sD.db, MassAddOutcome.success 3) := by
    unfold mass_add_criminals
    rw [if_neg (by decide)]
    simp only [List.head?_cons, List.tail_cons]
    rw [if_neg (by decide)]
    unfold process_rows
    rw [heqA]
    unfold process_rows
    rw [heqC]
    unfold process_rows
    rw [heqD]
    unfold process_rows
    rfl
  rw [hmass]
  constructor
  · rw [hcD, hlenC, hcC, hlenA, hcA]
    simp
  · rw [hlD, hlenC, hlC, hlenA, hlA]
    simp

/-- C5: in the bulk import, a data row whose case-folded (first, last)
name pair equals the immediately preceding processed row's reuses the
Person created for that row (one Person, both links), while a row whose
name pair differs creates a new Person — so the same two rows separated
by a differently-named row produce two distinct Person records for the
repeated name. -/
theorem mass_add_person_reuse (db : CrimDB)
    (f1 l1 o1 c1 d1 src1 f2 l2 o2 c2 d2 src2 f3 l3 o3 c3 d3 src3 : String)
    (h12f : pyLower (pyStrip f2) = pyLower (pyStrip f1))
    (h12l : pyLower (pyStrip l2) = pyLower (pyStrip l1))
    (h13 : (pyLower (pyStrip f3), pyLower (pyStrip l3))
        ≠ (pyLower (pyStrip f1), pyLower (pyStrip l1))) :
    ((mass_add_criminals noFault db "import.csv"
        [expected_header, [f1, l1, o1, c1, d1, src1],
         [f2, l2, o2, c2, d2, src2]]).1.criminals
      = db.criminals ++ [(db.criminals.length, pyStrip f1, pyStrip l1)]
     ∧ (mass_add_criminals noFault db "import.csv"
        [expected_header, [f1, l1, o1, c1, d1, src1],
         [f2, l2, o2, c2, d2, src2]]).1.offense_links.map LinkRow.criminal
      = db.offense_links.map LinkRow.criminal
        ++ [db.criminals.length, db.criminals.length])
    ∧ ((mass_add_criminals noFault db "import.csv"
        [expected_header, [f1, l1, o1, c1, d1, src1],
         [f3, l3, o3, c3, d3, src3], [f2, l2, o2, c2, d2, src2]]).1.criminals
      = db.criminals
        ++ [(db.criminals.length, pyStrip f1, pyStrip l1),
            (db.criminals.length + 1, pyStrip f3, pyStrip l3),
            (db.criminals.length + 2, pyStrip f2, pyStrip l2)]
     ∧ (mass_add_criminals noFault db "import.csv"
        [expected_header, [f1, l1, o1, c1, d1, src1],
         [f3, l3, o3, c3, d3, src3], [f2, l2, o2, c2, d2, src2]]).1.offense_links.map
          LinkRow.criminal
      = db.offense_links.map LinkRow.criminal
        ++ [db.criminals.length, db.criminals.length + 1,
            db.criminals.length + 2]) :=
  ⟨mass_add_adjacent_rows db f1 l1 o1 c1 d1 src1 f2 l2 o2 c2 d2 src2 h12f h12l,
   mass_add_separated_rows db f1 l1 o1 c1 d1 src1 f2 l2 o2 c2 d2 src2
     f3 l3 o3 c3 d3 src3 h12f h12l h13⟩

/-- Witness for `mass_add_person_reuse`: two adjacent John Doe rows on
an empty database create a single Person with two links; separated by a
Jane Roe row they create three Persons, two of them named John Doe. -/
theorem mass_add_person_reuse_witness :
    (mass_add_criminals noFault emptyDB "import.csv"
        [expected_header, johnRow, johnRow2]).1.criminals
      = [(0, "John", "Doe")]
    ∧ (mass_add_criminals noFault emptyDB "import.csv"
        [expected_header, johnRow, johnRow2]).1.offense_links.map LinkRow.criminal
      = [0, 0]
    ∧ (mass_add_criminals noFault emptyDB "import.csv"
        [expected_header, johnRow, janeRow, johnRow2]).1.criminals
      = [(0, "John", "Doe"), (1, "Jane", "Roe"), (2, "john", "DOE")] := by
  have h := mass_add_person_reuse emptyDB "John" "Doe" "Felony" "A" "Robbery"
    "federal" " john " "DOE" "Misdemeanor" "1" "Theft" "virginia"
    "Jane" "Roe" "Felony" "2" "Arson" "virginia"
    (by decide) (by decide) (by decide)
  exact ⟨h.1.1, h.1.2, h.2.1⟩

end Criminology
